import Mathlib

/-
Verification of the UniVoucher Redeem-Base service (src/server.js).

The embedding translates the server's pure control flow directly.  External
primitives that the server merely calls (Node's JSON.parse, Buffer.from,
crypto.pbkdf2Sync, AES-256-GCM, and the ethers library's hashing/signing and
RPC calls) are parameters of the model, bundled in `CryptoPrims` and `World`;
a `none` / `.error` value of such a parameter models a thrown exception or a
failed network call.  Network interactions performed by a request handler are
recorded in an explicit `Effect` trace.
-/

namespace RedeemBase

/-- Byte sequences, modelled as lists of naturals. -/
abbrev Bytes := List Nat

/-- The parsed JSON envelope of an encrypted private key: `salt` and `iv` are
hex-encoded strings, `ciphertext` is a base64-encoded string whose decoded
trailing 16 bytes are the GCM authentication tag. -/
structure EncryptedData where
  salt : String
  iv : String
  ciphertext : String
deriving Repr, DecidableEq

/-- External primitives called by `decryptPrivateKey` but defined outside the
repository: `JSON.parse`, `Buffer.from(_, 'hex')`, `Buffer.from(_, 'base64')`,
`crypto.pbkdf2Sync(_, _, iterations, keylen, 'sha256')`, AES-256-GCM
authenticated decryption (key, iv, content, tag), and UTF-8 decoding.
`none` models a thrown exception or a failed authentication. -/
structure CryptoPrims where
  jsonParse : String → Option EncryptedData
  hexDecode : String → Option Bytes
  base64Decode : String → Option Bytes
  pbkdf2Sha256 : String → Bytes → Nat → Nat → Bytes
  aesGcmDecrypt : Bytes → Bytes → Bytes → Bytes → Option Bytes
  utf8Decode : Bytes → String

/-- The secret normalization `cardSecret.replace(hyphenRegexGlobal, '')`
(src/server.js line 58): every hyphen is removed, all other characters (and
their case) are kept unchanged. -/
def stripHyphens (s : String) : String :=
  String.mk (s.data.filter (fun c => c != '-'))

/-- `const authTagLength = 16` (src/server.js line 66). -/
def authTagLength : Nat := 16

/-- The body of the `try` block of `decryptPrivateKey` (src/server.js lines
56-80).  Each `none` corresponds to a thrown exception: malformed JSON, an
undecodable field, a too-short ciphertext, or a GCM authentication failure.
`ciphertext.slice(-16)` is the last 16 bytes, `ciphertext.slice(0, -16)` all
but the last 16 bytes. -/
def decryptPrivateKeyCore (P : CryptoPrims) (encryptedData cardSecret : String) :
    Option String :=
  match P.jsonParse encryptedData with
  | none => none
  | some data =>
    let normalizedSecret := stripHyphens cardSecret
    match P.hexDecode data.salt with
    | none => none
    | some salt =>
      match P.hexDecode data.iv with
      | none => none
      | some iv =>
        match P.base64Decode data.ciphertext with
        | none => none
        | some ciphertext =>
          let key := P.pbkdf2Sha256 normalizedSecret salt 310000 32
          if ciphertext.length < authTagLength then none
          else
            let authTag := ciphertext.drop (ciphertext.length - authTagLength)
            let encryptedContent := ciphertext.take (ciphertext.length - authTagLength)
            match P.aesGcmDecrypt key iv encryptedContent authTag with
            | none => none
            | some decrypted => some (P.utf8Decode decrypted)

/-- `decryptPrivateKey` (src/server.js lines 55-84): the surrounding `catch`
collapses every failure of the pipeline into `Error("Invalid card secret")`. -/
def decryptPrivateKey (P : CryptoPrims) (encryptedData cardSecret : String) :
    Except String String :=
  match decryptPrivateKeyCore P encryptedData cardSecret with
  | some pk => .ok pk
  | none => .error "Invalid card secret"

/-- Helper: the inner pipeline reads the secret only through `stripHyphens`. -/
theorem decryptPrivateKeyCore_strip_congr (P : CryptoPrims) (e : String)
    {s₁ s₂ : String} (h : stripHyphens s₁ = stripHyphens s₂) :
    decryptPrivateKeyCore P e s₁ = decryptPrivateKeyCore P e s₂ := by
  unfold decryptPrivateKeyCore
  rw [h]

/-- Helper: `decryptPrivateKey` reads the secret only through `stripHyphens`. -/
theorem decryptPrivateKey_strip_congr (P : CryptoPrims) (e : String)
    {s₁ s₂ : String} (h : stripHyphens s₁ = stripHyphens s₂) :
    decryptPrivateKey P e s₁ = decryptPrivateKey P e s₂ := by
  unfold decryptPrivateKey
  rw [decryptPrivateKeyCore_strip_congr P e h]

/-- Claim C1: for every envelope and secret, whenever authenticated decryption
does not succeed — malformed JSON, an invalid hex/base64 field, a ciphertext
shorter than 16 bytes, a wrong key, or a GCM tag mismatch — `decryptPrivateKey`
fails with exactly the single opaque error "Invalid card secret": every result
is either a successful plaintext or that one error, never another error kind
and never partial plaintext. -/
theorem decryptPrivateKey_single_opaque_error (P : CryptoPrims) (e s : String) :
    (∃ pk, decryptPrivateKey P e s = .ok pk) ∨
      decryptPrivateKey P e s = .error "Invalid card secret" := by
  unfold decryptPrivateKey
  cases decryptPrivateKeyCore P e s with
  | none => exact Or.inr rfl
  | some pk => exact Or.inl ⟨pk, rfl⟩

/-- Helper: successful results of the inner pipeline are exactly the runs that
derive a 32-byte PBKDF2-SHA256 key with 310000 iterations from the
hyphen-stripped secret and the decoded salt, split the decoded ciphertext into
all-but-last-16 bytes and the 16-byte tag, pass AES-256-GCM authenticated
decryption, and UTF-8 decode the result. -/
theorem decryptPrivateKeyCore_eq_some_iff (P : CryptoPrims) (e s out : String) :
    decryptPrivateKeyCore P e s = some out ↔
      ∃ d salt iv ct pt, P.jsonParse e = some d ∧
        P.hexDecode d.salt = some salt ∧
        P.hexDecode d.iv = some iv ∧
        P.base64Decode d.ciphertext = some ct ∧
        ¬ ct.length < 16 ∧
        P.aesGcmDecrypt (P.pbkdf2Sha256 (stripHyphens s) salt 310000 32) iv
          (ct.take (ct.length - 16)) (ct.drop (ct.length - 16)) = some pt ∧
        out = P.utf8Decode pt := by
  unfold decryptPrivateKeyCore authTagLength
  rcases hj : P.jsonParse e with _ | d
  · simp [hj]
  · rcases hs : P.hexDecode d.salt with _ | salt
    · simp [hj, hs]
    · rcases hi : P.hexDecode d.iv with _ | iv
      · simp [hj, hs, hi]
      · rcases hc : P.base64Decode d.ciphertext with _ | ct
        · simp [hj, hs, hi, hc]
        · by_cases hlen : ct.length < 16
          · simp [hj, hs, hi, hc, hlen]
          · rcases hd : P.aesGcmDecrypt (P.pbkdf2Sha256 (stripHyphens s) salt 310000 32)
                iv (ct.take (ct.length - 16)) (ct.drop (ct.length - 16)) with _ | pt
            · simp [hj, hs, hi, hc, hlen, hd]
            · simp [hj, hs, hi, hc, hlen, hd, eq_comm]
              exact fun _ => Nat.le_of_not_lt hlen

/-- Claim C2: `decryptPrivateKey` succeeds exactly when the envelope parses,
its fields decode, the base64-decoded ciphertext is at least 16 bytes, and
AES-256-GCM decryption of all-but-the-last-16 bytes under the 32-byte
PBKDF2-SHA256 key (310000 iterations, hyphen-stripped secret as password,
hex-decoded salt) with the envelope's iv and the trailing 16-byte tag
authenticates; the returned plaintext is the UTF-8 decoding of the GCM
output. -/
theorem decryptPrivateKey_success_iff (P : CryptoPrims) (e s out : String) :
    decryptPrivateKey P e s = .ok out ↔
      ∃ d salt iv ct pt, P.jsonParse e = some d ∧
        P.hexDecode d.salt = some salt ∧
        P.hexDecode d.iv = some iv ∧
        P.base64Decode d.ciphertext = some ct ∧
        ¬ ct.length < 16 ∧
        P.aesGcmDecrypt (P.pbkdf2Sha256 (stripHyphens s) salt 310000 32) iv
          (ct.take (ct.length - 16)) (ct.drop (ct.length - 16)) = some pt ∧
        out = P.utf8Decode pt := by
  rw [← decryptPrivateKeyCore_eq_some_iff]
  unfold decryptPrivateKey
  cases decryptPrivateKeyCore P e s <;> simp

/-- Claim C3: two secrets that agree after hyphen removal decrypt identically
(same plaintext or same failure) against every envelope, and the
normalization removes exactly the hyphen characters, preserving every other
character — in particular letter case — unchanged. -/
theorem decryptPrivateKey_hyphen_equiv (P : CryptoPrims) (e s₁ s₂ : String)
    (h : stripHyphens s₁ = stripHyphens s₂) :
    decryptPrivateKey P e s₁ = decryptPrivateKey P e s₂ ∧
      (stripHyphens s₁).data = s₁.data.filter (fun c => c != '-') ∧
      (stripHyphens s₂).data = s₂.data.filter (fun c => c != '-') :=
  ⟨decryptPrivateKey_strip_congr P e h, rfl, rfl⟩

/-- Concrete crypto primitives used to exhibit satisfiable runs: every stage
succeeds and the decrypted plaintext is "priv". -/
def primsEx : CryptoPrims where
  jsonParse := fun _ => some ⟨"aa", "bb", "cc"⟩
  hexDecode := fun _ => some [0]
  base64Decode := fun _ => some (List.replicate 17 1)
  pbkdf2Sha256 := fun _ _ _ _ => List.replicate 32 0
  aesGcmDecrypt := fun _ _ _ _ => some [104]
  utf8Decode := fun _ => "priv"

theorem decryptPrivateKey_hyphen_equiv_witness :
    decryptPrivateKey primsEx "env" "ABCDE-FGHIJ-KLMNO-PQRST" =
        decryptPrivateKey primsEx "env" "ABCDEFGHIJKLMNOPQRST" ∧
      (stripHyphens "ABCDE-FGHIJ-KLMNO-PQRST").data =
        "ABCDE-FGHIJ-KLMNO-PQRST".data.filter (fun c => c != '-') ∧
      (stripHyphens "ABCDEFGHIJKLMNOPQRST").data =
        "ABCDEFGHIJKLMNOPQRST".data.filter (fun c => c != '-') :=
  decryptPrivateKey_hyphen_equiv primsEx "env" _ _ (by decide)

/-- Network parameters of one supported chain (src/server.js lines 40-48). -/
structure Chain where
  name : String
  rpc : String
  symbol : String
  decimals : Nat
deriving Repr, DecidableEq

/-- The `CHAINS` table (src/server.js lines 40-48): chain id to network
parameters; `none` for an unsupported chain id. -/
def CHAINS (chainId : Nat) : Option Chain :=
  if chainId = 1 then some ⟨"Ethereum", "eth-mainnet", "ETH", 18⟩
  else if chainId = 56 then some ⟨"BNB Chain", "bnb-mainnet", "BNB", 18⟩
  else if chainId = 137 then some ⟨"Polygon", "polygon-mainnet", "POL", 18⟩
  else if chainId = 10 then some ⟨"Optimism", "opt-mainnet", "ETH", 18⟩
  else if chainId = 42161 then some ⟨"Arbitrum", "arb-mainnet", "ETH", 18⟩
  else if chainId = 8453 then some ⟨"Base", "base-mainnet", "ETH", 18⟩
  else if chainId = 43114 then some ⟨"Avalanche", "avax-mainnet", "AVAX", 18⟩
  else none

/-- `getExplorerUrl` (src/server.js lines 303-314): block-explorer base URL per
chain id, defaulting to etherscan for any other chain id. -/
def getExplorerUrl (chainId : Nat) : String :=
  if chainId = 1 then "https://etherscan.io"
  else if chainId = 56 then "https://bscscan.com"
  else if chainId = 137 then "https://polygonscan.com"
  else if chainId = 10 then "https://optimistic.etherscan.io"
  else if chainId = 42161 then "https://arbiscan.io"
  else if chainId = 8453 then "https://basescan.org"
  else if chainId = 43114 then "https://snowtrace.io"
  else "https://etherscan.io"

/-- `ethers.constants.AddressZero`. -/
def zeroAddress : String := "0x0000000000000000000000000000000000000000"

/-- The card fields of the registry API response that the verify-secret and
redeem handlers read. -/
structure Card where
  active : Bool
  chainId : Nat
  tokenAddress : String
  tokenAmount : Nat
  encryptedPrivateKey : String
deriving Repr, DecidableEq

/-- A completed registry API response: its HTTP status and its JSON body. -/
structure RegistryResult where
  status : Nat
  card : Card
deriving Repr, DecidableEq

/-- `response.ok`: HTTP status in the 200..299 range. -/
def statusOk (s : Nat) : Bool := decide (200 ≤ s ∧ s < 300)

/-- Token metadata resolved by `getTokenInfo`. -/
structure TokenInfo where
  symbol : String
  decimals : Nat
deriving Repr, DecidableEq

/-- A value passed to `ethers.utils.solidityKeccak256`: a string or an
address. -/
inductive SolValue where
  | str (s : String)
  | addr (a : String)
deriving Repr, DecidableEq

/-- One network interaction performed by a request handler: the registry API
fetch, the `estimateGas.redeemCard` RPC call, the `getGasPrice` RPC call, the
`redeemCard` transaction broadcast, and the ERC-20 `symbol`/`decimals` RPC
read. -/
inductive Effect where
  | registryFetch (cardId : String)
  | estimateGas (cardId recipient signature partner : String)
  | gasPrice
  | submitTx (cardId recipient signature partner : String) (gasLimit gasPriceUsed : Nat)
  | tokenQuery (tokenAddress : String)
deriving Repr, DecidableEq

/-- The external world of one request: the crypto primitives, the ethers
library's pure helpers (`isAddress`, `solidityKeccak256` composed with
`arrayify`, `Wallet`/`signMessage`), the outcomes the registry API and the
RPC endpoints would produce for each call, the outcome of the ERC-20 metadata
query, the floating-point amount formatting of `formatTokenAmount`, and the
configured `PARTNER_ADDRESS` (which the handlers never pass on-chain).
`.error` models a thrown exception carrying its message. -/
structure World where
  prims : CryptoPrims
  partnerAddress : String
  isAddress : String → Bool
  fetchCard : String → Except String RegistryResult
  solidityKeccak256 : List String → List SolValue → Bytes
  signMessage : String → Bytes → Except String String
  estimateGasResult : String → String → String → String → Except String Nat
  gasPriceFirst : Except String Nat
  gasPriceSecond : Except String Nat
  submitTxResult : String → String → String → String → Nat → Nat → Except String String
  tokenQueryResult : String → Except String TokenInfo
  formatAmount : Nat → Nat → String

/-- JS truthiness of an optional request-body string: an absent field and the
empty string are falsy. -/
def falsyStr : Option String → Bool
  | none => true
  | some s => s == ""

/-- `getProvider` (src/server.js lines 87-93): throws `Unsupported chain` for a
chain id outside `CHAINS`; constructing the JSON-RPC provider object performs
no network call. -/
def getProvider (chainId : Nat) : Except String Unit :=
  match CHAINS chainId with
  | some _ => .ok ()
  | none => .error "Unsupported chain"

/-- `getTokenInfo` (src/server.js lines 96-113): the native-asset sentinel
short-circuits to the chain's symbol/decimals (reading `CHAINS[chainId]`
throws when the chain id is unknown); otherwise the ERC-20 `symbol`/`decimals`
query runs, with a catch-all fallback to `TOKEN` / 18 decimals. -/
def getTokenInfo (w : World) (tokenAddress : String) (chainId : Nat) :
    Except String TokenInfo × List Effect :=
  if tokenAddress = zeroAddress then
    match CHAINS chainId with
    | some c => (.ok ⟨c.symbol, c.decimals⟩, [])
    | none => (.error "TypeError: cannot read chain", [])
  else
    match w.tokenQueryResult tokenAddress with
    | .ok ti => (.ok ti, [.tokenQuery tokenAddress])
    | .error _ => (.ok ⟨"TOKEN", 18⟩, [.tokenQuery tokenAddress])

/-- `getOptimalGasPrice` (src/server.js lines 122-132): on a thrown
`getGasPrice` the catch block issues the identical call once more and any
second failure propagates. -/
def getOptimalGasPrice (w : World) : Except String Nat × List Effect :=
  match w.gasPriceFirst with
  | .ok p => (.ok p, [.gasPrice])
  | .error _ =>
    match w.gasPriceSecond with
    | .ok p => (.ok p, [.gasPrice, .gasPrice])
    | .error e => (.error e, [.gasPrice, .gasPrice])

/-- The body of POST /api/verify-secret (src/server.js lines 179-209). -/
structure VerifyRequest where
  cardId : Option String
  cardSecret : Option String
deriving Repr, DecidableEq

/-- The body of POST /api/redeem (src/server.js lines 212-300). -/
structure RedeemRequest where
  cardId : Option String
  cardSecret : Option String
  recipientAddress : Option String
deriving Repr, DecidableEq

/-- A JSON response body sent by the verify-secret or redeem handler. -/
inductive RespBody where
  | errMsg (error : String)
  | verifyOk
  | redeemOk (txHash : String) (recipientAddress : String)
      (partnerAddress : Option String) (amount : String) (explorerUrl : String)
deriving Repr, DecidableEq

/-- An HTTP response: status code and JSON body. -/
structure Response where
  status : Nat
  body : RespBody
deriving Repr, DecidableEq

/-- Helper for `error.message.includes(pat)`: `pat` occurs as a contiguous
segment of `l`. -/
def listContainsSeg (l pat : List Char) : Bool :=
  (List.range (l.length + 1)).any (fun i => pat.isPrefixOf (l.drop i))

/-- `s.includes(pat)` on JS strings. -/
def strIncludes (s pat : String) : Bool :=
  listContainsSeg s.data pat.data

/-- The `try` block of POST /api/verify-secret (src/server.js lines 180-204):
field presence check, registry fetch (any non-ok status returns 404
"Card not found"), active check, then decryption attempt whose inner catch
returns 400 "Invalid card secret". `.error` is an exception reaching the
route-level catch. -/
def verifySecretTry (w : World) (req : VerifyRequest) :
    Except String Response × List Effect :=
  if falsyStr req.cardId || falsyStr req.cardSecret then
    (.ok ⟨400, .errMsg "Card ID and secret required"⟩, [])
  else
    match w.fetchCard (req.cardId.getD "") with
    | .error e => (.error e, [.registryFetch (req.cardId.getD "")])
    | .ok resp =>
      if !statusOk resp.status then
        (.ok ⟨404, .errMsg "Card not found"⟩, [.registryFetch (req.cardId.getD "")])
      else if !resp.card.active then
        (.ok ⟨400, .errMsg "This card has already been redeemed or cancelled"⟩,
          [.registryFetch (req.cardId.getD "")])
      else
        match decryptPrivateKey w.prims resp.card.encryptedPrivateKey
            (req.cardSecret.getD "") with
        | .ok _ => (.ok ⟨200, .verifyOk⟩, [.registryFetch (req.cardId.getD "")])
        | .error _ =>
          (.ok ⟨400, .errMsg "Invalid card secret"⟩,
            [.registryFetch (req.cardId.getD "")])

/-- POST /api/verify-secret with its route-level catch (src/server.js lines
205-208): any escaped exception maps to 500 "Failed to verify card secret". -/
def verifySecretHandler (w : World) (req : VerifyRequest) : Response × List Effect :=
  match verifySecretTry w req with
  | (.ok resp, tr) => (resp, tr)
  | (.error _, tr) => (⟨500, .errMsg "Failed to verify card secret"⟩, tr)

/-- The `try` block of POST /api/redeem (src/server.js lines 213-285): field
presence check, `ethers.utils.isAddress` validation, registry fetch (any
non-ok status returns 404 "Card not found"), active check, decryption, message
hash `solidityKeccak256(["string","string","string","address"],
["Redeem card:", cardId, "to:", recipientAddress])`, personal-message
signature by the card wallet, provider lookup, `estimateGas.redeemCard` with
`AddressZero` as partner, 20% gas buffer, gas price query, `redeemCard`
transaction with `AddressZero` as partner, then token info and the success
JSON with `partnerAddress: null`. -/
def redeemTry (w : World) (req : RedeemRequest) : Except String Response × List Effect :=
  if falsyStr req.cardId || falsyStr req.cardSecret || falsyStr req.recipientAddress then
    (.ok ⟨400, .errMsg "Card ID, secret, and recipient address required"⟩, [])
  else
    if !w.isAddress (req.recipientAddress.getD "") then
      (.ok ⟨400, .errMsg "Invalid recipient address"⟩, [])
    else
      match w.fetchCard (req.cardId.getD "") with
      | .error e => (.error e, [.registryFetch (req.cardId.getD "")])
      | .ok resp =>
        if !statusOk resp.status then
          (.ok ⟨404, .errMsg "Card not found"⟩, [.registryFetch (req.cardId.getD "")])
        else
          if !resp.card.active then
            (.ok ⟨400, .errMsg "This card has already been redeemed or cancelled"⟩,
              [.registryFetch (req.cardId.getD "")])
          else
            match decryptPrivateKey w.prims resp.card.encryptedPrivateKey
                (req.cardSecret.getD "") with
            | .error e => (.error e, [.registryFetch (req.cardId.getD "")])
            | .ok privateKey =>
              match w.signMessage privateKey (w.solidityKeccak256
                  ["string", "string", "string", "address"]
                  [.str "Redeem card:", .str (req.cardId.getD ""), .str "to:",
                    .addr (req.recipientAddress.getD "")]) with
              | .error e => (.error e, [.registryFetch (req.cardId.getD "")])
              | .ok signature =>
                match getProvider resp.card.chainId with
                | .error e => (.error e, [.registryFetch (req.cardId.getD "")])
                | .ok _ =>
                  match w.estimateGasResult (req.cardId.getD "")
                      (req.recipientAddress.getD "") signature zeroAddress with
                  | .error e =>
                    (.error e, [.registryFetch (req.cardId.getD ""),
                      .estimateGas (req.cardId.getD "") (req.recipientAddress.getD "")
                        signature zeroAddress])
                  | .ok gasEstimate =>
                    match getOptimalGasPrice w with
                    | (.error e, trGas) =>
                      (.error e, [.registryFetch (req.cardId.getD ""),
                        .estimateGas (req.cardId.getD "") (req.recipientAddress.getD "")
                          signature zeroAddress] ++ trGas)
                    | (.ok gasPriceUsed, trGas) =>
                      match w.submitTxResult (req.cardId.getD "")
                          (req.recipientAddress.getD "") signature zeroAddress
                          (gasEstimate * 120 / 100) gasPriceUsed with
                      | .error e =>
                        (.error e, [.registryFetch (req.cardId.getD ""),
                          .estimateGas (req.cardId.getD "") (req.recipientAddress.getD "")
                            signature zeroAddress] ++ trGas ++
                          [.submitTx (req.cardId.getD "") (req.recipientAddress.getD "")
                            signature zeroAddress (gasEstimate * 120 / 100) gasPriceUsed])
                      | .ok txHash =>
                        match getTokenInfo w resp.card.tokenAddress resp.card.chainId with
                        | (.error e, trTok) =>
                          (.error e, [.registryFetch (req.cardId.getD ""),
                            .estimateGas (req.cardId.getD "") (req.recipientAddress.getD "")
                              signature zeroAddress] ++ trGas ++
                            [.submitTx (req.cardId.getD "") (req.recipientAddress.getD "")
                              signature zeroAddress (gasEstimate * 120 / 100) gasPriceUsed] ++
                            trTok)
                        | (.ok tokenInfo, trTok) =>
                          (.ok ⟨200, .redeemOk txHash (req.recipientAddress.getD "") none
                            (w.formatAmount resp.card.tokenAmount tokenInfo.decimals ++ " " ++
                              tokenInfo.symbol)
                            (getExplorerUrl resp.card.chainId ++ "/tx/" ++ txHash)⟩,
                            [.registryFetch (req.cardId.getD ""),
                              .estimateGas (req.cardId.getD "") (req.recipientAddress.getD "")
                                signature zeroAddress] ++ trGas ++
                              [.submitTx (req.cardId.getD "") (req.recipientAddress.getD "")
                                signature zeroAddress (gasEstimate * 120 / 100) gasPriceUsed] ++
                              trTok)

/-- POST /api/redeem with its route-level catch (src/server.js lines 287-299):
an escaped exception maps to 400 when its message contains the
already-redeemed text or "Invalid card secret", and to 500
"Failed to redeem card" otherwise. -/
def redeemHandler (w : World) (req : RedeemRequest) : Response × List Effect :=
  match redeemTry w req with
  | (.ok resp, tr) => (resp, tr)
  | (.error msg, tr) =>
    if strIncludes msg "This card has already been redeemed or cancelled" then
      (⟨400, .errMsg "Card has already been redeemed or cancelled"⟩, tr)
    else if strIncludes msg "Invalid card secret" then
      (⟨400, .errMsg "Invalid card secret"⟩, tr)
    else
      (⟨500, .errMsg "Failed to redeem card"⟩, tr)

/-- Helper: full characterization of a successful redeem run.  Under the
outcomes each external call would produce, the `try` block returns the success
response and performs exactly the registry fetch, the gas estimation with the
zero partner address, one gas price query, and the transaction submission with
the zero partner address and the buffered gas limit. -/
theorem redeemTry_success_run (w : World) (cid sec rec : String)
    (r : RegistryResult) (pk sig txh : String) (ch : Chain) (g p : Nat)
    (hcid : cid ≠ "") (hsec : sec ≠ "") (hrec : rec ≠ "")
    (haddr : w.isAddress rec = true)
    (hfetch : w.fetchCard cid = .ok r)
    (hstatus : statusOk r.status = true)
    (hactive : r.card.active = true)
    (hdec : decryptPrivateKey w.prims r.card.encryptedPrivateKey sec = .ok pk)
    (hsig : w.signMessage pk
      (w.solidityKeccak256 ["string", "string", "string", "address"]
        [.str "Redeem card:", .str cid, .str "to:", .addr rec]) = .ok sig)
    (hchain : CHAINS r.card.chainId = some ch)
    (hest : w.estimateGasResult cid rec sig zeroAddress = .ok g)
    (hprice : w.gasPriceFirst = .ok p)
    (hsub : w.submitTxResult cid rec sig zeroAddress (g * 120 / 100) p = .ok txh)
    (htok : r.card.tokenAddress = zeroAddress) :
    redeemTry w ⟨some cid, some sec, some rec⟩ =
      (.ok ⟨200, .redeemOk txh rec none
          (w.formatAmount r.card.tokenAmount ch.decimals ++ " " ++ ch.symbol)
          (getExplorerUrl r.card.chainId ++ "/tx/" ++ txh)⟩,
        [.registryFetch cid, .estimateGas cid rec sig zeroAddress, .gasPrice,
          .submitTx cid rec sig zeroAddress (g * 120 / 100) p]) := by
  unfold redeemTry getOptimalGasPrice getTokenInfo getProvider
  simp [falsyStr, hcid, hsec, hrec, haddr, hfetch, hstatus, hactive, hdec, hsig,
    hchain, hest, hprice, hsub, htok]

/-- A registry card used in the concrete example runs: active, on Ethereum
mainnet, holding the native asset. -/
def cardEx : Card := ⟨true, 1, zeroAddress, 1000, "env"⟩

/-- The Ethereum mainnet entry of `CHAINS`. -/
def chainEth : Chain := ⟨"Ethereum", "eth-mainnet", "ETH", 18⟩

/-- A concrete world in which every external call succeeds. -/
def worldEx : World where
  prims := primsEx
  partnerAddress := "0xpartner"
  isAddress := fun _ => true
  fetchCard := fun _ => .ok ⟨200, cardEx⟩
  solidityKeccak256 := fun _ _ => [1, 2]
  signMessage := fun _ _ => .ok "sig"
  estimateGasResult := fun _ _ _ _ => .ok 100
  gasPriceFirst := .ok 7
  gasPriceSecond := .ok 7
  submitTxResult := fun _ _ _ _ _ _ => .ok "0xtx"
  tokenQueryResult := fun _ => .error "unreachable"
  formatAmount := fun _ _ => "1"

/-- A world whose registry replies with HTTP 500 (upstream failure). -/
def world500 : World :=
  { worldEx with fetchCard := fun _ => .ok ⟨500, cardEx⟩ }

/-- A world whose registry returns an already-redeemed (inactive) card. -/
def worldInactive : World :=
  { worldEx with fetchCard := fun _ => .ok ⟨200, { cardEx with active := false }⟩ }

/-- A world in which `ethers.utils.isAddress` rejects every recipient. -/
def worldBadAddr : World :=
  { worldEx with isAddress := fun _ => false }

/-- Claim C4: the redemption authorization the redeem handler carries into the
gas estimation and into the submitted transaction is exactly `sig`, the
personal-message signature (`Wallet.signMessage` over the arrayified hash)
under the card's decrypted one-time private key `pk` of
`solidityKeccak256(["string","string","string","address"],
["Redeem card:", cardId, "to:", recipientAddress])`, in that order and with
those type tags. -/
theorem redeem_signature_canonical (w : World) (cid sec rec : String)
    (r : RegistryResult) (pk sig txh : String) (ch : Chain) (g p : Nat)
    (hcid : cid ≠ "") (hsec : sec ≠ "") (hrec : rec ≠ "")
    (haddr : w.isAddress rec = true)
    (hfetch : w.fetchCard cid = .ok r)
    (hstatus : statusOk r.status = true)
    (hactive : r.card.active = true)
    (hdec : decryptPrivateKey w.prims r.card.encryptedPrivateKey sec = .ok pk)
    (hsig : w.signMessage pk
      (w.solidityKeccak256 ["string", "string", "string", "address"]
        [.str "Redeem card:", .str cid, .str "to:", .addr rec]) = .ok sig)
    (hchain : CHAINS r.card.chainId = some ch)
    (hest : w.estimateGasResult cid rec sig zeroAddress = .ok g)
    (hprice : w.gasPriceFirst = .ok p)
    (hsub : w.submitTxResult cid rec sig zeroAddress (g * 120 / 100) p = .ok txh)
    (htok : r.card.tokenAddress = zeroAddress) :
    Effect.estimateGas cid rec sig zeroAddress ∈
        (redeemHandler w ⟨some cid, some sec, some rec⟩).2 ∧
      Effect.submitTx cid rec sig zeroAddress (g * 120 / 100) p ∈
        (redeemHandler w ⟨some cid, some sec, some rec⟩).2 := by
  have h := redeemTry_success_run w cid sec rec r pk sig txh ch g p hcid hsec hrec
    haddr hfetch hstatus hactive hdec hsig hchain hest hprice hsub htok
  unfold redeemHandler
  rw [h]
  simp

theorem redeem_signature_canonical_witness :
    Effect.estimateGas "1" "0xd" "sig" zeroAddress ∈
        (redeemHandler worldEx ⟨some "1", some "sec", some "0xd"⟩).2 ∧
      Effect.submitTx "1" "0xd" "sig" zeroAddress (100 * 120 / 100) 7 ∈
        (redeemHandler worldEx ⟨some "1", some "sec", some "0xd"⟩).2 :=
  redeem_signature_canonical worldEx "1" "sec" "0xd" ⟨200, cardEx⟩ "priv" "sig"
    "0xtx" chainEth 100 7 (by decide) (by decide) (by decide) rfl rfl rfl rfl rfl
    rfl rfl rfl rfl rfl rfl

/-- Claim C5: when the freshly fetched card has `active = false`, the redeem
handler returns HTTP 400 with the already-redeemed error after only the
registry fetch: no gas estimation and no transaction submission occurs in that
run. -/
theorem redeem_inactive_no_chain_calls (w : World) (cid sec rec : String)
    (r : RegistryResult)
    (hcid : cid ≠ "") (hsec : sec ≠ "") (hrec : rec ≠ "")
    (haddr : w.isAddress rec = true)
    (hfetch : w.fetchCard cid = .ok r)
    (hstatus : statusOk r.status = true)
    (hactive : r.card.active = false) :
    redeemHandler w ⟨some cid, some sec, some rec⟩ =
        (⟨400, .errMsg "This card has already been redeemed or cancelled"⟩,
          [.registryFetch cid]) ∧
      (∀ c q s' a, Effect.estimateGas c q s' a ∉
        (redeemHandler w ⟨some cid, some sec, some rec⟩).2) ∧
      (∀ c q s' a gl gp, Effect.submitTx c q s' a gl gp ∉
        (redeemHandler w ⟨some cid, some sec, some rec⟩).2) := by
  have h : redeemHandler w ⟨some cid, some sec, some rec⟩ =
      (⟨400, .errMsg "This card has already been redeemed or cancelled"⟩,
        [.registryFetch cid]) := by
    unfold redeemHandler redeemTry
    simp [falsyStr, hcid, hsec, hrec, haddr, hfetch, hstatus, hactive]
  refine ⟨h, ?_, ?_⟩ <;> simp [h]

theorem redeem_inactive_no_chain_calls_witness :
    redeemHandler worldInactive ⟨some "1", some "sec", some "0xd"⟩ =
        (⟨400, .errMsg "This card has already been redeemed or cancelled"⟩,
          [.registryFetch "1"]) ∧
      (∀ c q s' a, Effect.estimateGas c q s' a ∉
        (redeemHandler worldInactive ⟨some "1", some "sec", some "0xd"⟩).2) ∧
      (∀ c q s' a gl gp, Effect.submitTx c q s' a gl gp ∉
        (redeemHandler worldInactive ⟨some "1", some "sec", some "0xd"⟩).2) :=
  redeem_inactive_no_chain_calls worldInactive "1" "sec" "0xd"
    ⟨200, { cardEx with active := false }⟩ (by decide) (by decide) (by decide)
    rfl rfl rfl rfl

/-- Claim C6: with all three body fields present but a recipient address that
`ethers.utils.isAddress` rejects, the redeem handler returns HTTP 400
"Invalid recipient address" with an empty effect trace: no registry fetch, no
RPC read, and no transaction broadcast is attempted. -/
theorem redeem_invalid_address_no_network (w : World) (cid sec rec : String)
    (hcid : cid ≠ "") (hsec : sec ≠ "") (hrec : rec ≠ "")
    (haddr : w.isAddress rec = false) :
    redeemHandler w ⟨some cid, some sec, some rec⟩ =
      (⟨400, .errMsg "Invalid recipient address"⟩, []) := by
  unfold redeemHandler redeemTry
  simp [falsyStr, hcid, hsec, hrec, haddr]

theorem redeem_invalid_address_no_network_witness :
    redeemHandler worldBadAddr ⟨some "1", some "sec", some "not-an-address"⟩ =
      (⟨400, .errMsg "Invalid recipient address"⟩, []) :=
  redeem_invalid_address_no_network worldBadAddr "1" "sec" "not-an-address"
    (by decide) (by decide) (by decide) rfl

/-- Claim C8: a successful redemption estimates gas and submits the
`redeemCard` transaction with the zero address as the partner fee-recipient
parameter — regardless of the configured `PARTNER_ADDRESS` in the world — the
success response's `partnerAddress` field is `none` (null), and the attached
gas limit is the estimate multiplied by 120 and integer-divided by 100. -/
theorem redeem_zero_partner_fee_run (w : World) (cid sec rec : String)
    (r : RegistryResult) (pk sig txh : String) (ch : Chain) (g p : Nat)
    (hcid : cid ≠ "") (hsec : sec ≠ "") (hrec : rec ≠ "")
    (haddr : w.isAddress rec = true)
    (hfetch : w.fetchCard cid = .ok r)
    (hstatus : statusOk r.status = true)
    (hactive : r.card.active = true)
    (hdec : decryptPrivateKey w.prims r.card.encryptedPrivateKey sec = .ok pk)
    (hsig : w.signMessage pk
      (w.solidityKeccak256 ["string", "string", "string", "address"]
        [.str "Redeem card:", .str cid, .str "to:", .addr rec]) = .ok sig)
    (hchain : CHAINS r.card.chainId = some ch)
    (hest : w.estimateGasResult cid rec sig zeroAddress = .ok g)
    (hprice : w.gasPriceFirst = .ok p)
    (hsub : w.submitTxResult cid rec sig zeroAddress (g * 120 / 100) p = .ok txh)
    (htok : r.card.tokenAddress = zeroAddress) :
    redeemHandler w ⟨some cid, some sec, some rec⟩ =
      (⟨200, .redeemOk txh rec none
          (w.formatAmount r.card.tokenAmount ch.decimals ++ " " ++ ch.symbol)
          (getExplorerUrl r.card.chainId ++ "/tx/" ++ txh)⟩,
        [.registryFetch cid, .estimateGas cid rec sig zeroAddress, .gasPrice,
          .submitTx cid rec sig zeroAddress (g * 120 / 100) p]) := by
  have h := redeemTry_success_run w cid sec rec r pk sig txh ch g p hcid hsec hrec
    haddr hfetch hstatus hactive hdec hsig hchain hest hprice hsub htok
  unfold redeemHandler
  rw [h]

theorem redeem_zero_partner_fee_run_witness :
    redeemHandler worldEx ⟨some "1", some "sec", some "0xd"⟩ =
      (⟨200, .redeemOk "0xtx" "0xd" none ("1" ++ " " ++ "ETH")
          (getExplorerUrl 1 ++ "/tx/" ++ "0xtx")⟩,
        [.registryFetch "1", .estimateGas "1" "0xd" "sig" zeroAddress, .gasPrice,
          .submitTx "1" "0xd" "sig" zeroAddress (100 * 120 / 100) 7]) :=
  redeem_zero_partner_fee_run worldEx "1" "sec" "0xd" ⟨200, cardEx⟩ "priv" "sig"
    "0xtx" chainEth 100 7 (by decide) (by decide) (by decide) rfl rfl rfl rfl rfl
    rfl rfl rfl rfl rfl rfl

/-- Claim C10: `getExplorerUrl` is total — every chain id yields one of the
seven configured explorer base URLs, and any chain id outside the seven falls
back to `https://etherscan.io` — and the successful redeem response carries
`explorerUrl = getExplorerUrl(chainId) ++ "/tx/" ++ txHash`. -/
theorem getExplorerUrl_total_fallback (w : World) (cid sec rec : String)
    (r : RegistryResult) (pk sig txh : String) (ch : Chain) (g p : Nat)
    (c : Nat)
    (hc : c ∉ ([1, 56, 137, 10, 42161, 8453, 43114] : List Nat))
    (hcid : cid ≠ "") (hsec : sec ≠ "") (hrec : rec ≠ "")
    (haddr : w.isAddress rec = true)
    (hfetch : w.fetchCard cid = .ok r)
    (hstatus : statusOk r.status = true)
    (hactive : r.card.active = true)
    (hdec : decryptPrivateKey w.prims r.card.encryptedPrivateKey sec = .ok pk)
    (hsig : w.signMessage pk
      (w.solidityKeccak256 ["string", "string", "string", "address"]
        [.str "Redeem card:", .str cid, .str "to:", .addr rec]) = .ok sig)
    (hchain : CHAINS r.card.chainId = some ch)
    (hest : w.estimateGasResult cid rec sig zeroAddress = .ok g)
    (hprice : w.gasPriceFirst = .ok p)
    (hsub : w.submitTxResult cid rec sig zeroAddress (g * 120 / 100) p = .ok txh)
    (htok : r.card.tokenAddress = zeroAddress) :
    getExplorerUrl c = "https://etherscan.io" ∧
      (∀ c', getExplorerUrl c' ∈ ["https://etherscan.io", "https://bscscan.com",
        "https://polygonscan.com", "https://optimistic.etherscan.io",
        "https://arbiscan.io", "https://basescan.org", "https://snowtrace.io"]) ∧
      (redeemHandler w ⟨some cid, some sec, some rec⟩).1.body =
        .redeemOk txh rec none
          (w.formatAmount r.card.tokenAmount ch.decimals ++ " " ++ ch.symbol)
          (getExplorerUrl r.card.chainId ++ "/tx/" ++ txh) := by
  simp only [List.mem_cons, List.not_mem_nil, or_false, not_or] at hc
  obtain ⟨h1, h2, h3, h4, h5, h6, h7⟩ := hc
  refine ⟨by simp [getExplorerUrl, h1, h2, h3, h4, h5, h6, h7], ?_, ?_⟩
  · intro c'
    by_cases e1 : c' = 1 <;> by_cases e2 : c' = 56 <;> by_cases e3 : c' = 137 <;>
      by_cases e4 : c' = 10 <;> by_cases e5 : c' = 42161 <;>
      by_cases e6 : c' = 8453 <;> by_cases e7 : c' = 43114 <;>
      simp [getExplorerUrl, e1, e2, e3, e4, e5, e6, e7]
  · have h := redeemTry_success_run w cid sec rec r pk sig txh ch g p hcid hsec
      hrec haddr hfetch hstatus hactive hdec hsig hchain hest hprice hsub htok
    unfold redeemHandler
    rw [h]

theorem getExplorerUrl_total_fallback_witness :
    getExplorerUrl 2 = "https://etherscan.io" ∧
      (∀ c', getExplorerUrl c' ∈ ["https://etherscan.io", "https://bscscan.com",
        "https://polygonscan.com", "https://optimistic.etherscan.io",
        "https://arbiscan.io", "https://basescan.org", "https://snowtrace.io"]) ∧
      (redeemHandler worldEx ⟨some "1", some "sec", some "0xd"⟩).1.body =
        .redeemOk "0xtx" "0xd" none ("1" ++ " " ++ "ETH")
          (getExplorerUrl 1 ++ "/tx/" ++ "0xtx") :=
  getExplorerUrl_total_fallback worldEx "1" "sec" "0xd" ⟨200, cardEx⟩ "priv"
    "sig" "0xtx" chainEth 100 7 2 (by decide) (by decide) (by decide) (by decide)
    rfl rfl rfl rfl rfl rfl rfl rfl rfl rfl rfl

/-- Claim C7 counterexample: the registry answers HTTP 500 — a non-success
status other than 404 — yet both the verify-secret and redeem handlers return
HTTP 404 "Card not found", not the HTTP 500 (`UpstreamError`) the claim
requires; hence HTTP 404 is also not equivalent to the card id being unknown. -/
theorem registry_status500_counterexample :
    world500.fetchCard "1" = .ok ⟨500, cardEx⟩ ∧
      statusOk 500 = false ∧ (500 : Nat) ≠ 404 ∧
      (verifySecretHandler world500 ⟨some "1", some "sec"⟩).1 =
        ⟨404, .errMsg "Card not found"⟩ ∧
      (verifySecretHandler world500 ⟨some "1", some "sec"⟩).1.status ≠ 500 ∧
      (redeemHandler world500 ⟨some "1", some "sec", some "0xd"⟩).1 =
        ⟨404, .errMsg "Card not found"⟩ ∧
      (redeemHandler world500 ⟨some "1", some "sec", some "0xd"⟩).1.status ≠ 500 :=
  ⟨rfl, by decide, by decide, rfl, by decide, rfl, by decide⟩

/-- Claim C7 amended: in the verify-secret and redeem handlers every
non-success registry status — 404 or any other, e.g. 500 — maps to HTTP 404
"Card not found"; so HTTP 404 signals any upstream non-success there, not only
an unknown card id. -/
theorem registry_nonsuccess_maps_to_404 (w : World) (cid sec rec : String)
    (r : RegistryResult)
    (hcid : cid ≠ "") (hsec : sec ≠ "") (hrec : rec ≠ "")
    (haddr : w.isAddress rec = true)
    (hfetch : w.fetchCard cid = .ok r)
    (hstatus : statusOk r.status = false) :
    verifySecretHandler w ⟨some cid, some sec⟩ =
        (⟨404, .errMsg "Card not found"⟩, [.registryFetch cid]) ∧
      redeemHandler w ⟨some cid, some sec, some rec⟩ =
        (⟨404, .errMsg "Card not found"⟩, [.registryFetch cid]) := by
  constructor
  · unfold verifySecretHandler verifySecretTry
    simp [falsyStr, hcid, hsec, hfetch, hstatus]
  · unfold redeemHandler redeemTry
    simp [falsyStr, hcid, hsec, hrec, haddr, hfetch, hstatus]

theorem registry_nonsuccess_maps_to_404_witness :
    verifySecretHandler world500 ⟨some "1", some "sec"⟩ =
        (⟨404, .errMsg "Card not found"⟩, [.registryFetch "1"]) ∧
      redeemHandler world500 ⟨some "1", some "sec", some "0xd"⟩ =
        (⟨404, .errMsg "Card not found"⟩, [.registryFetch "1"]) :=
  registry_nonsuccess_maps_to_404 world500 "1" "sec" "0xd" ⟨500, cardEx⟩
    (by decide) (by decide) (by decide) rfl rfl rfl

/-- Boolean success test of a decryption attempt. -/
def exceptIsOk : Except String String → Bool
  | .ok _ => true
  | .error _ => false

/-- Helper: the verify-secret response depends on the supplied secret only
through whether decryption succeeds. -/
theorem verifySecretHandler_bit_dep (w : World) (cid : Option String)
    (s₁ s₂ : String) (h₁ : s₁ ≠ "") (h₂ : s₂ ≠ "")
    (hok : ∀ e, exceptIsOk (decryptPrivateKey w.prims e s₁) =
      exceptIsOk (decryptPrivateKey w.prims e s₂)) :
    verifySecretHandler w ⟨cid, some s₁⟩ = verifySecretHandler w ⟨cid, some s₂⟩ := by
  have hs₁ : falsyStr (some s₁) = false := by simp [falsyStr, h₁]
  have hs₂ : falsyStr (some s₂) = false := by simp [falsyStr, h₂]
  unfold verifySecretHandler verifySecretTry
  simp only [hs₁, hs₂, Bool.or_false, Option.getD_some]
  cases hfal : falsyStr cid
  · simp only [Bool.false_eq_true, if_false]
    cases hf : w.fetchCard (cid.getD "") with
    | error e => rfl
    | ok r =>
      by_cases hst : statusOk r.status
      · by_cases hac : r.card.active = true
        · have hb := hok r.card.encryptedPrivateKey
          cases hd₁ : decryptPrivateKey w.prims r.card.encryptedPrivateKey s₁ <;>
            cases hd₂ : decryptPrivateKey w.prims r.card.encryptedPrivateKey s₂ <;>
            rw [hd₁, hd₂] at hb <;> simp [exceptIsOk] at hb <;>
            simp [hst, hac, hd₁, hd₂]
        · simp [hst, hac]
      · simp [hst]
  · rfl

/-- Helper: the redeem response depends on the supplied secret only through
the result of decryption. -/
theorem redeemHandler_secret_congr (w : World) (cid rec : Option String)
    (s₁ s₂ : String) (h₁ : s₁ ≠ "") (h₂ : s₂ ≠ "")
    (heq : ∀ e, decryptPrivateKey w.prims e s₁ = decryptPrivateKey w.prims e s₂) :
    redeemHandler w ⟨cid, some s₁, rec⟩ = redeemHandler w ⟨cid, some s₂, rec⟩ := by
  have hs₁ : falsyStr (some s₁) = false := by simp [falsyStr, h₁]
  have hs₂ : falsyStr (some s₂) = false := by simp [falsyStr, h₂]
  unfold redeemHandler redeemTry
  simp only [hs₁, hs₂, Bool.or_false, Bool.false_or, Option.getD_some, heq]

/-- Shape predicate: a non-exceptional response body lies in the allowed
list. -/
def okBodyIn (allowed : List RespBody) : Except String Response → Prop
  | .ok resp => resp.body ∈ allowed
  | .error _ => True

/-- Shape predicate: a non-exceptional response body is a success record with
a null partner address or lies in the allowed list. -/
def okBodyRedeem (allowed : List RespBody) : Except String Response → Prop
  | .ok resp => (∃ t q a u, resp.body = .redeemOk t q none a u) ∨ resp.body ∈ allowed
  | .error _ => True

/-- Helper: every successful-return body of the verify-secret `try` block is
`{valid: true}` or one of its four fixed error messages. -/
theorem verifySecretTry_ok_body (w : World) (req : VerifyRequest) :
    okBodyIn [.verifyOk, .errMsg "Card ID and secret required",
      .errMsg "Card not found",
      .errMsg "This card has already been redeemed or cancelled",
      .errMsg "Invalid card secret"] (verifySecretTry w req).1 := by
  unfold verifySecretTry
  repeat' split
  all_goals simp [okBodyIn]

/-- Helper: every successful-return body of the redeem `try` block is a
success record with a null partner address or one of its four fixed error
messages. -/
theorem redeemTry_ok_body (w : World) (req : RedeemRequest) :
    okBodyRedeem [.errMsg "Card ID, secret, and recipient address required",
      .errMsg "Invalid recipient address", .errMsg "Card not found",
      .errMsg "This card has already been redeemed or cancelled"]
      (redeemTry w req).1 := by
  unfold redeemTry getProvider getOptimalGasPrice getTokenInfo
  repeat' split
  all_goals simp [okBodyRedeem]

/-- Claim C9: the supplied card secret and the decrypted private key never
appear in a response body.  (1) The verify-secret response is unchanged when
the secret is replaced by any secret with the same decryption-success bit;
(2) the redeem response is unchanged when the secret is replaced by any
secret decrypting to the same result; (3) verify-secret only ever answers
`{valid: true}` or one of five fixed error strings; (4) redeem only ever
answers a success record — fields txHash, recipientAddress, a null
partnerAddress, amount, explorerUrl — or one of seven fixed error strings. -/
theorem handlers_secret_confidential (w : World) (cid rec : Option String)
    (s₁ s₂ : String) (h₁ : s₁ ≠ "") (h₂ : s₂ ≠ "") :
    ((∀ e, exceptIsOk (decryptPrivateKey w.prims e s₁) =
        exceptIsOk (decryptPrivateKey w.prims e s₂)) →
      verifySecretHandler w ⟨cid, some s₁⟩ = verifySecretHandler w ⟨cid, some s₂⟩) ∧
    ((∀ e, decryptPrivateKey w.prims e s₁ = decryptPrivateKey w.prims e s₂) →
      redeemHandler w ⟨cid, some s₁, rec⟩ = redeemHandler w ⟨cid, some s₂, rec⟩) ∧
    (∀ req : VerifyRequest, (verifySecretHandler w req).1.body ∈
      ([.verifyOk, .errMsg "Card ID and secret required", .errMsg "Card not found",
        .errMsg "This card has already been redeemed or cancelled",
        .errMsg "Invalid card secret",
        .errMsg "Failed to verify card secret"] : List RespBody)) ∧
    (∀ req : RedeemRequest,
      (∃ t q a u, (redeemHandler w req).1.body = .redeemOk t q none a u) ∨
        (redeemHandler w req).1.body ∈
          ([.errMsg "Card ID, secret, and recipient address required",
            .errMsg "Invalid recipient address", .errMsg "Card not found",
            .errMsg "This card has already been redeemed or cancelled",
            .errMsg "Card has already been redeemed or cancelled",
            .errMsg "Invalid card secret",
            .errMsg "Failed to redeem card"] : List RespBody)) := by
  refine ⟨verifySecretHandler_bit_dep w cid s₁ s₂ h₁ h₂,
    redeemHandler_secret_congr w cid rec s₁ s₂ h₁ h₂, ?_, ?_⟩
  · intro req
    have hb := verifySecretTry_ok_body w req
    rcases hrt : verifySecretTry w req with ⟨res, tr⟩
    rw [hrt] at hb
    cases res with
    | ok resp =>
      have hh : verifySecretHandler w req = (resp, tr) := by
        unfold verifySecretHandler
        rw [hrt]
      rw [hh]
      simp only [okBodyIn] at hb
      simp only [List.mem_cons, List.not_mem_nil, or_false] at hb ⊢
      tauto
    | error e =>
      have hh : verifySecretHandler w req =
          (⟨500, .errMsg "Failed to verify card secret"⟩, tr) := by
        unfold verifySecretHandler
        rw [hrt]
      rw [hh]
      simp
  · intro req
    have hb := redeemTry_ok_body w req
    rcases hrt : redeemTry w req with ⟨res, tr⟩
    rw [hrt] at hb
    cases res with
    | ok resp =>
      have hh : redeemHandler w req = (resp, tr) := by
        unfold redeemHandler
        rw [hrt]
      rw [hh]
      simp only [okBodyRedeem] at hb
      rcases hb with ⟨t, q, a, u, hbo⟩ | herr
      · exact Or.inl ⟨t, q, a, u, hbo⟩
      · right
        simp only [List.mem_cons, List.not_mem_nil, or_false] at herr ⊢
        tauto
    | error e =>
      by_cases ha : strIncludes e "This card has already been redeemed or cancelled"
      · have hh : redeemHandler w req =
            (⟨400, .errMsg "Card has already been redeemed or cancelled"⟩, tr) := by
          unfold redeemHandler
          rw [hrt]
          simp [ha]
        rw [hh]
        simp
      · by_cases hb2 : strIncludes e "Invalid card secret"
        · have hh : redeemHandler w req =
              (⟨400, .errMsg "Invalid card secret"⟩, tr) := by
            unfold redeemHandler
            rw [hrt]
            simp [ha, hb2]
          rw [hh]
          simp
        · have hh : redeemHandler w req =
              (⟨500, .errMsg "Failed to redeem card"⟩, tr) := by
            unfold redeemHandler
            rw [hrt]
            simp [ha, hb2]
          rw [hh]
          simp

theorem handlers_secret_confidential_witness :
    verifySecretHandler worldEx ⟨some "1", some "A-B"⟩ =
        verifySecretHandler worldEx ⟨some "1", some "AB"⟩ ∧
      redeemHandler worldEx ⟨some "1", some "A-B", some "0xd"⟩ =
        redeemHandler worldEx ⟨some "1", some "AB", some "0xd"⟩ := by
  have h := handlers_secret_confidential worldEx (some "1") (some "0xd") "A-B" "AB"
    (by decide) (by decide)
  exact ⟨h.1 (fun e => by
      rw [decryptPrivateKey_strip_congr worldEx.prims e
        (by decide : stripHyphens "A-B" = stripHyphens "AB")]),
    h.2.1 (fun e => decryptPrivateKey_strip_congr worldEx.prims e (by decide))⟩

end RedeemBase
